import Mathlib

/-!
Verification of the two-node ESP32 guessing game
(`esp32-guessing-game-manager` Coordinator node and
`esp32-guessing-game-remote` Controller node).

The C++ globals of each node are collected into a `Globals` structure and
each C++ function becomes a pure Lean function mapping the old globals
(plus its environment inputs: the `millis()` value, the `digitalRead`
level, the pseudo-random stream, the ESP-NOW send results) to the new
globals and the list of bytes sent over ESP-NOW.  `uint8_t` / `uint32_t`
arithmetic is modelled on `Nat` with explicit `% 256` / mod-`2^32`
wrap-around where the C computation can wrap.
-/

/-- `2^32`, the modulus of `uint32_t` arithmetic. -/
def u32Mod : Nat := 4294967296

/-- `uint32_t` subtraction `a - b` (the idiom `millis() - t0` used by both
nodes for elapsed-time measurements): the result is reduced mod `2^32`. -/
def wrapSub (a b : Nat) : Nat := (a + u32Mod - b % u32Mod) % u32Mod

/-- When no wrap-around occurs (`b ≤ a < 2^32`), `uint32_t` subtraction
agrees with the true elapsed time `a - b`. -/
theorem wrapSub_eq_sub (a b : Nat) (hba : b ≤ a) (ha : a < u32Mod) :
    wrapSub a b = a - b := by
  unfold wrapSub u32Mod at *
  omega

namespace Manager

/-- Game states of the Coordinator (`enum class States` in
`esp32-guessing-game-manager/src/main.cpp`). -/
inductive States where
  | idle
  | countdown
  | playing
  | game_over
deriving DecidableEq, Repr

/-- Command codes sent by the Coordinator. -/
def CMD_GAME_START : Nat := 1
def CMD_GOOD_GUESS : Nat := 2
def CMD_WRONG_GUESS : Nat := 3
def CMD_GAME_WON : Nat := 4

/-- `const uint8_t maxSequenceLength = 15`: the declared size of the
`sequence` buffer. -/
def maxSequenceLength : Nat := 15

/-- `const uint32_t longPressDuration = 2000`. -/
def longPressDuration : Nat := 2000

/-- `const uint32_t debounceDelay = 50`. -/
def debounceDelay : Nat := 50

/-- The mutable globals of the Coordinator node.  `seq` is the contents of
the C array `uint8_t sequence[maxSequenceLength]` as a total map from
index to stored byte (so that stores past index 14 — which in C are
out-of-bounds writes — remain expressible and can be reasoned about). -/
structure Globals where
  state : States
  difficulty : Nat
  difficultyLocked : Bool
  buttonInter : Bool
  longPressed : Bool
  shortPressed : Bool
  lastDebounceTime : Nat
  buttonPressStart : Nat
  seq : Nat → Nat
  currentStep : Nat
  guess : Nat
  guessed : Bool

/-- The globals right after `setup()`: `difficulty = 0`,
`difficultyLocked = false`, `buttonInter = true`, `state = idle`,
`currentStep = 0`; the uninitialised `sequence` array and `guess` are
modelled as zero. -/
def initGlobals : Globals :=
  { state := .idle
    difficulty := 0
    difficultyLocked := false
    buttonInter := true
    longPressed := false
    shortPressed := false
    lastDebounceTime := 0
    buttonPressStart := 0
    seq := fun _ => 0
    currentStep := 0
    guess := 0
    guessed := false }

/-- Arduino `random(1, 4)`: a uniform draw in `{1, 2, 3}`, modelled as
`1 + r % 3` over an abstract random stream value `r`. -/
def random1to4 (r : Nat) : Nat := 1 + r % 3

/-- `generateSequence()`: writes `sequence[i] = random(1, 4)` for every
`i` with `0 ≤ i ≤ difficulty`, then resets `currentStep` to `0`.
`rng i` is the abstract random source consumed at loop index `i`. -/
def generateSequence (rng : Nat → Nat) (c : Globals) : Globals :=
  { c with
    seq := fun i => if i ≤ c.difficulty then random1to4 (rng i) else c.seq i
    currentStep := 0 }

/-- The list of values `generateSequence` stores, in index order
(`sequence[0] … sequence[difficulty]`). -/
def generateSequenceList (rng : Nat → Nat) (difficulty : Nat) : List Nat :=
  (List.range (difficulty + 1)).map fun i => random1to4 (rng i)

/-- The array indices written by `generateSequence`'s loop
`for (int i = 0; i <= difficulty; ++i)`. -/
def generateSequenceWrites (difficulty : Nat) : List Nat :=
  List.range (difficulty + 1)

/-- `onDataRecv(mac, incomingData, len)` of the Coordinator: ignores
everything unless `state == playing`; otherwise records
`guessed = true; guess = incomingData[0]`.  Note the handler performs no
check on `len`. -/
def onDataRecv (c : Globals) (incomingData : List Nat) (len : Nat) : Globals :=
  if c.state ≠ States.playing then c
  else { c with guessed := true, guess := incomingData.headD 0 }

/-- `updateButtonState()`: `buttonState` is the `digitalRead` level
(`true` = HIGH = released, with the pull-up) and `now` the `millis()`
value.  On a release with a recorded press start, classifies the press
(long iff `millis() - buttonPressStart >= longPressDuration`) and resets
the timing; otherwise re-records `buttonPressStart` as `millis()` while
the button is held LOW, or clears it. -/
def updateButtonState (buttonState : Bool) (now : Nat) (c : Globals) : Globals :=
  if buttonState && decide (0 < c.buttonPressStart) then
    if longPressDuration ≤ wrapSub now c.buttonPressStart then
      { c with longPressed := true, buttonPressStart := 0 }
    else
      { c with shortPressed := true, buttonPressStart := 0 }
  else
    { c with buttonPressStart := if buttonState then 0 else now }

/-- The button ISR `onButtonPress()`: accepts the edge (setting
`buttonInter` and `lastDebounceTime`) only when more than
`debounceDelay` ms have elapsed since the last accepted edge. -/
def onButtonPress (now : Nat) (c : Globals) : Globals :=
  if debounceDelay < wrapSub now c.lastDebounceTime then
    { c with lastDebounceTime := now, buttonInter := true }
  else c

/-- `increaseDifficulty()`: `difficulty = (difficulty + 1) % 16`. -/
def increaseDifficulty (c : Globals) : Globals :=
  { c with difficulty := (c.difficulty + 1) % 16 }

/-- `treatGuess()`: compares `guess` with `sequence[currentStep]`.  On a
match, increments `currentStep` (`uint8_t`, hence mod 256) and sends
`GAME_WON` (entering `game_over`) when `currentStep > difficulty`,
else `GOOD_GUESS`.  On a mismatch, sends `WRONG_GUESS` and resets
`currentStep` to 0.  Returns the new globals and the byte sent. -/
def treatGuess (c : Globals) : Globals × Nat :=
  if c.guess = c.seq c.currentStep then
    let step := (c.currentStep + 1) % 256
    if c.difficulty < step then
      ({ c with currentStep := step, state := .game_over }, CMD_GAME_WON)
    else
      ({ c with currentStep := step }, CMD_GOOD_GUESS)
  else
    ({ c with currentStep := 0 }, CMD_WRONG_GUESS)

/-- One iteration of the Coordinator's `loop()`.  `rng` feeds
`generateSequence`, `buttonState`/`now` feed `updateButtonState`.
Returns the new globals and the command bytes sent during the
iteration. -/
def loopStep (rng : Nat → Nat) (buttonState : Bool) (now : Nat)
    (c : Globals) : Globals × List Nat :=
  match c.state with
  | .idle =>
      if c.buttonInter then
        let c1 := updateButtonState buttonState now c
        let c2 :=
          if c1.longPressed then
            { generateSequence rng c1 with state := .countdown, longPressed := false }
          else if c1.shortPressed then
            { increaseDifficulty c1 with shortPressed := false }
          else c1
        ({ c2 with buttonInter := false }, [])
      else (c, [])
  | .countdown =>
      ({ c with state := .playing }, [CMD_GAME_START])
  | .playing =>
      if c.guessed then
        let t := treatGuess c
        (t.1, [t.2])
      else (c, [])
  | .game_over =>
      ({ c with state := .idle, difficultyLocked := false }, [])

/-- The Coordinator globals reachable from `setup()` by any interleaving
of loop iterations, inbound ESP-NOW packets and button edges. -/
inductive Reachable : Globals → Prop where
  | init : Reachable initGlobals
  | loop (rng : Nat → Nat) (buttonState : Bool) (now : Nat) {c : Globals} :
      Reachable c → Reachable (loopStep rng buttonState now c).1
  | recv (incomingData : List Nat) (len : Nat) {c : Globals} :
      Reachable c → Reachable (onDataRecv c incomingData len)
  | button (now : Nat) {c : Globals} :
      Reachable c → Reachable (onButtonPress now c)

end Manager

namespace Remote

/-- Game states of the Controller (`enum class States` in
`esp32-guessing-game-remote/src/main.cpp`). -/
inductive States where
  | ready
  | playing
  | guessed
  | correct
  | wrong
  | won
deriving DecidableEq, Repr

/-- Command codes understood by the Controller. -/
def CMD_GAME_START : Nat := 1
def CMD_GOOD_GUESS : Nat := 2
def CMD_WRONG_GUESS : Nat := 3
def CMD_GAME_WON : Nat := 4

/-- The mutable globals of the Controller node.  `buttonPressed` and
`lastDebounceTime` model the 3-element per-button arrays. -/
structure Globals where
  state : States
  startSignal : Bool
  rightGuess : Bool
  wrongGuess : Bool
  wonSignal : Bool
  locked : Bool
  lastStateUpdate : Nat
  lastSentMessage : Nat
  buttonPressed : Nat → Bool
  lastDebounceTime : Nat → Nat

/-- The globals right after `setup()`: `state = ready`, all FSM flags and
button flags cleared, `locked` zero-initialised to `false`. -/
def initGlobals : Globals :=
  { state := .ready
    startSignal := false
    rightGuess := false
    wrongGuess := false
    wonSignal := false
    locked := false
    lastStateUpdate := 0
    lastSentMessage := 0
    buttonPressed := fun _ => false
    lastDebounceTime := fun _ => 0 }

/-- Result of one execution of the send callback `onDataSent`: how many
times the body of the retry `while` loop ran (each run resends
`lastSentMessage` and delays 100 ms), the final value of the `retries`
counter, and whether the `"Failed to send after 5 attempts"` branch
(`if (retries == 5)`) was taken. -/
structure SendCallbackResult where
  resends : Nat
  finalRetries : Nat
  loggedFailure : Bool
  delayPerResendMs : Nat
deriving DecidableEq, Repr

/-- The retry loop `while (status != ESP_NOW_SEND_SUCCESS && retries++ < 5)`
in the failing case (`status` is the callback's parameter and is never
reassigned, so the first conjunct stays true throughout).  `retries` is
the current counter value; the post-increment bumps it on every test,
including the final failing one.  Returns `(final retries, loop-body
runs)`. -/
def retryGo (retries : Nat) : Nat × Nat :=
  if h : retries < 5 then
    let r := retryGo (retries + 1)
    (r.1, r.2 + 1)
  else (retries + 1, 0)
termination_by 5 - retries
decreasing_by omega

/-- `onDataSent(mac_addr, status)` of the Controller: on success the loop
condition's short-circuit leaves `retries = 0`; on failure the loop
resends `lastSentMessage` (the same byte each time, with a 100 ms delay)
until the post-incremented counter test fails, then the failure message
is logged only if `retries == 5` holds afterwards. -/
def onDataSent (success : Bool) : SendCallbackResult :=
  let r := if success then (0, 0) else retryGo 0
  { resends := r.2
    finalRetries := r.1
    loggedFailure := decide (r.1 = 5)
    delayPerResendMs := 100 }

/-- `onDataRecv(mac, incomingData, len)` of the Controller: everything is
ignored while `locked`; otherwise payloads whose length is not exactly 1
are discarded, and a recognised command byte sets the matching FSM
flag. -/
def onDataRecv (r : Globals) (incomingData : List Nat) (len : Nat) : Globals :=
  if r.locked then r
  else if len ≠ 1 then r
  else
    let command := incomingData.headD 0
    if command = CMD_GAME_START then { r with startSignal := true }
    else if command = CMD_GOOD_GUESS then { r with rightGuess := true }
    else if command = CMD_WRONG_GUESS then { r with wrongGuess := true }
    else if command = CMD_GAME_WON then { r with wonSignal := true }
    else r

/-- `sendButtonPress(buttonIndex)`: stores `buttonIndex + 1` in
`lastSentMessage`, sends it, and on an `ESP_OK` queueing result
(`ok`) enters `guessed` and returns `true`. -/
def sendButtonPress (buttonIndex : Nat) (ok : Bool) (r : Globals) :
    Globals × Bool :=
  let buttonCode := buttonIndex + 1
  let r1 := { r with lastSentMessage := buttonCode }
  if ok then ({ r1 with state := .guessed }, true) else (r1, false)

/-- The `for` loop of the `playing` case of `loop()`: for each button
index with a pending press flag, clears the flag and calls
`sendButtonPress`; on a successful send records `state = guessed` and
`lastStateUpdate = millis()`.  `ok i` is the `esp_now_send` queueing
result for button `i`. -/
def playingScan (now : Nat) (ok : Nat → Bool) :
    List Nat → Globals → Globals
  | [], r => r
  | i :: rest, r =>
      let r1 :=
        if r.buttonPressed i then
          let r2 := { r with
            buttonPressed := fun j => if j = i then false else r.buttonPressed j }
          let s := sendButtonPress i (ok i) r2
          if s.2 then { s.1 with state := .guessed, lastStateUpdate := now }
          else s.1
        else r
      playingScan now ok rest r1

/-- One iteration of the Controller's `loop()` at `millis() = now`. -/
def loopStep (now : Nat) (ok : Nat → Bool) (r : Globals) : Globals :=
  match r.state with
  | .ready =>
      let r1 := { r with locked := false }
      if r1.startSignal then
        { r1 with startSignal := false, state := .playing, lastStateUpdate := now }
      else r1
  | .playing =>
      playingScan now ok [0, 1, 2] { r with locked := false }
  | .guessed =>
      if r.wonSignal then
        { r with wonSignal := false, state := .won,
                 lastStateUpdate := now, locked := true }
      else if r.rightGuess then
        { r with rightGuess := false, state := .correct,
                 lastStateUpdate := now, locked := true }
      else if r.wrongGuess then
        { r with wrongGuess := false, state := .wrong,
                 lastStateUpdate := now, locked := true }
      else r
  | .correct =>
      if 2000 < wrapSub now r.lastStateUpdate then
        { r with state := .playing, lastStateUpdate := now, locked := false }
      else r
  | .wrong =>
      if 2000 < wrapSub now r.lastStateUpdate then
        { r with state := .playing, lastStateUpdate := now, locked := false }
      else r
  | .won =>
      if 10000 < wrapSub now r.lastStateUpdate then
        { r with state := .ready, locked := false }
      else r

end Remote

/-- A Coordinator state in `playing` with a concrete live sequence, used
to instantiate the theorems below. -/
def playingGlobals : Manager.Globals :=
  { Manager.initGlobals with
    state := .playing, seq := fun _ => 1, guess := 1, guessed := true }

/-- Claim C1 (code bug): the spec bounds difficulty by 15 and the
sequence buffer `sequence[maxSequenceLength]` holds 15 bytes, but at
difficulty 15 the loop of `generateSequence` writes index 15 — one past
the end of the buffer — while for difficulty 14 (and below) every
written index is in bounds. -/
theorem manager_sequence_overflow_at_difficulty_15 :
    15 ∈ Manager.generateSequenceWrites 15 ∧
    ¬ (15 < Manager.maxSequenceLength) ∧
    (∀ i ∈ Manager.generateSequenceWrites 14, i < Manager.maxSequenceLength) := by
  decide

/-- Claim C2: for every difficulty `d ≤ 15`, `generateSequence` produces
exactly `d + 1` symbols, each in `{1, 2, 3}`; the array slots
`sequence[0] … sequence[d]` hold exactly those symbols; and the progress
cursor `currentStep` is reset to 0. -/
theorem generateSequence_length_symbols_cursor
    (rng : Nat → Nat) (c : Manager.Globals) (hd : c.difficulty ≤ 15) :
    (Manager.generateSequenceList rng c.difficulty).length = c.difficulty + 1 ∧
    (∀ x ∈ Manager.generateSequenceList rng c.difficulty,
        x = 1 ∨ x = 2 ∨ x = 3) ∧
    (∀ i, i ≤ c.difficulty →
        (Manager.generateSequence rng c).seq i =
          (Manager.generateSequenceList rng c.difficulty).getD i 0) ∧
    (Manager.generateSequence rng c).currentStep = 0 := by
  refine ⟨by simp [Manager.generateSequenceList], ?_, ?_, rfl⟩
  · intro x hx
    simp only [Manager.generateSequenceList, List.mem_map, List.mem_range] at hx
    obtain ⟨i, _, rfl⟩ := hx
    have h3 : rng i % 3 < 3 := Nat.mod_lt _ (by omega)
    unfold Manager.random1to4
    omega
  · intro i hi
    have hi' : i < c.difficulty + 1 := by omega
    simp [Manager.generateSequence, Manager.generateSequenceList, hi,
      List.getD, List.getElem?_map, List.getElem?_range, hi']

/-- Witness for C2 at the initial Coordinator state and a constant
random stream. -/
theorem generateSequence_length_symbols_cursor_witness :
    Manager.initGlobals.difficulty ≤ 15 ∧
    ((Manager.generateSequenceList (fun _ => 0)
        Manager.initGlobals.difficulty).length =
          Manager.initGlobals.difficulty + 1 ∧
      (∀ x ∈ Manager.generateSequenceList (fun _ => 0)
          Manager.initGlobals.difficulty, x = 1 ∨ x = 2 ∨ x = 3) ∧
      (∀ i, i ≤ Manager.initGlobals.difficulty →
          (Manager.generateSequence (fun _ => 0) Manager.initGlobals).seq i =
            (Manager.generateSequenceList (fun _ => 0)
              Manager.initGlobals.difficulty).getD i 0) ∧
      (Manager.generateSequence (fun _ => 0) Manager.initGlobals).currentStep
        = 0) :=
  ⟨by decide,
    generateSequence_length_symbols_cursor (fun _ => 0) Manager.initGlobals
      (by decide)⟩

/-- Claim C3: while `playing` with a live sequence (`currentStep ≤
difficulty ≤ 15`), `treatGuess` sends `WRONG_GUESS`, resets the cursor
to 0 and stays in `playing` on a mismatch; sends `GOOD_GUESS`,
increments the cursor and stays in `playing` on a match short of the
end; and sends `GAME_WON` and enters `game_over` on a match completing
the sequence (`cursor + 1 = difficulty + 1`). -/
theorem treatGuess_verdicts (c : Manager.Globals)
    (hstate : c.state = .playing) (hcur : c.currentStep ≤ c.difficulty)
    (hd : c.difficulty ≤ 15) :
    (c.guess ≠ c.seq c.currentStep →
        (Manager.treatGuess c).2 = Manager.CMD_WRONG_GUESS ∧
        (Manager.treatGuess c).1.currentStep = 0 ∧
        (Manager.treatGuess c).1.state = .playing) ∧
    (c.guess = c.seq c.currentStep → c.currentStep + 1 < c.difficulty + 1 →
        (Manager.treatGuess c).2 = Manager.CMD_GOOD_GUESS ∧
        (Manager.treatGuess c).1.currentStep = c.currentStep + 1 ∧
        (Manager.treatGuess c).1.state = .playing) ∧
    (c.guess = c.seq c.currentStep → c.currentStep + 1 = c.difficulty + 1 →
        (Manager.treatGuess c).2 = Manager.CMD_GAME_WON ∧
        (Manager.treatGuess c).1.state = .game_over) := by
  have hm : (c.currentStep + 1) % 256 = c.currentStep + 1 :=
    Nat.mod_eq_of_lt (by omega)
  refine ⟨?_, ?_, ?_⟩
  · intro hne
    simp [Manager.treatGuess, hne, hstate]
  · intro heq hlt
    have hnl : ¬ c.difficulty < c.currentStep + 1 := by omega
    simp [Manager.treatGuess, heq, hnl, hm, hstate]
  · intro heq hend
    have hl : c.difficulty < c.currentStep + 1 := by omega
    simp [Manager.treatGuess, heq, hl, hm]

/-- Witness for C3: at difficulty 0 with sequence `[1]` and guess 1, the
match completes the sequence, `GAME_WON` is sent and the Coordinator
enters `game_over`. -/
theorem treatGuess_verdicts_witness :
    playingGlobals.state = .playing ∧
    playingGlobals.currentStep ≤ playingGlobals.difficulty ∧
    playingGlobals.difficulty ≤ 15 ∧
    ((playingGlobals.guess ≠ playingGlobals.seq playingGlobals.currentStep →
        (Manager.treatGuess playingGlobals).2 = Manager.CMD_WRONG_GUESS ∧
        (Manager.treatGuess playingGlobals).1.currentStep = 0 ∧
        (Manager.treatGuess playingGlobals).1.state = .playing) ∧
      (playingGlobals.guess = playingGlobals.seq playingGlobals.currentStep →
        playingGlobals.currentStep + 1 < playingGlobals.difficulty + 1 →
        (Manager.treatGuess playingGlobals).2 = Manager.CMD_GOOD_GUESS ∧
        (Manager.treatGuess playingGlobals).1.currentStep =
          playingGlobals.currentStep + 1 ∧
        (Manager.treatGuess playingGlobals).1.state = .playing) ∧
      (playingGlobals.guess = playingGlobals.seq playingGlobals.currentStep →
        playingGlobals.currentStep + 1 = playingGlobals.difficulty + 1 →
        (Manager.treatGuess playingGlobals).2 = Manager.CMD_GAME_WON ∧
        (Manager.treatGuess playingGlobals).1.state = .game_over)) :=
  ⟨rfl, by decide, by decide,
    treatGuess_verdicts playingGlobals rfl (by decide) (by decide)⟩

/-- Evaluation of the failing-status retry loop: the body runs 5 times
and the post-incremented counter leaves the loop at 6. -/
theorem retryGo_zero : Remote.retryGo 0 = (6, 5) := by
  simp [Remote.retryGo]

/-- Claim C4 (code bug): on a failure status the Controller's send
callback does resend the same last-sent byte 5 times with a 100 ms delay
between attempts and touches no game state, but the give-up log is never
emitted: the loop exits with `retries = 6`, so the `retries == 5` guard
in front of `"Failed to send after 5 attempts"` is false.  On a success
status nothing is resent. -/
theorem onDataSent_retry_never_logs_failure :
    Remote.onDataSent false =
      { resends := 5, finalRetries := 6, loggedFailure := false,
        delayPerResendMs := 100 } ∧
    Remote.onDataSent true =
      { resends := 0, finalRetries := 0, loggedFailure := false,
        delayPerResendMs := 100 } := by
  constructor
  · simp [Remote.onDataSent, retryGo_zero]
  · simp [Remote.onDataSent]

/-- Claim C5 counterexample: the Coordinator's receive handler performs
no length check — a 2-byte payload delivered while `playing` is not
discarded, it overwrites `guess` with the payload's first byte. -/
theorem manager_onDataRecv_misses_length_check :
    Manager.onDataRecv playingGlobals [7, 8] 2 ≠ playingGlobals := by
  intro h
  have h7 : (Manager.onDataRecv playingGlobals [7, 8] 2).guess = 7 := by
    simp [Manager.onDataRecv, playingGlobals]
  rw [h] at h7
  simp [playingGlobals, Manager.initGlobals] at h7

/-- Claim C5 amended: the Controller discards every payload whose length
is not exactly 1 with no state change; the Coordinator ignores payloads
received outside `playing`, but while `playing` it accepts a payload of
any length, recording its first byte as the guess. -/
theorem onDataRecv_length_handling (len : Nat) (data : List Nat)
    (r : Remote.Globals) (c : Manager.Globals) (hlen : len ≠ 1) :
    Remote.onDataRecv r data len = r ∧
    (c.state ≠ .playing → Manager.onDataRecv c data len = c) ∧
    (c.state = .playing →
        Manager.onDataRecv c data len =
          { c with guessed := true, guess := data.headD 0 }) := by
  refine ⟨?_, ?_, ?_⟩
  · by_cases hl : r.locked <;> simp [Remote.onDataRecv, hl, hlen]
  · intro h
    simp [Manager.onDataRecv, h]
  · intro h
    simp [Manager.onDataRecv, h]

/-- Witness for the amended C5 at length 2: the Controller in its initial
state discards the payload, the Coordinator in `playing` records its
first byte. -/
theorem onDataRecv_length_handling_witness :
    (2 : Nat) ≠ 1 ∧
    (Remote.onDataRecv Remote.initGlobals [7, 8] 2 = Remote.initGlobals ∧
      (playingGlobals.state ≠ .playing →
          Manager.onDataRecv playingGlobals [7, 8] 2 = playingGlobals) ∧
      (playingGlobals.state = .playing →
          Manager.onDataRecv playingGlobals [7, 8] 2 =
            { playingGlobals with guessed := true, guess := [7, 8].headD 0 })) :=
  ⟨by decide,
    onDataRecv_length_handling 2 [7, 8] Remote.initGlobals playingGlobals
      (by decide)⟩

/-- A Controller state in a locked transient display (`correct`). -/
def lockedGlobals : Remote.Globals :=
  { Remote.initGlobals with state := .correct, locked := true }

/-- Claim C7: while the Controller's `locked` flag is set, its receive
handler returns the state unchanged for every inbound payload. -/
theorem locked_controller_ignores_commands (r : Remote.Globals)
    (data : List Nat) (len : Nat) (h : r.locked = true) :
    Remote.onDataRecv r data len = r := by
  simp [Remote.onDataRecv, h]

/-- Witness for C7: a locked Controller ignores an inbound
`GAME_START`. -/
theorem locked_controller_ignores_commands_witness :
    lockedGlobals.locked = true ∧
    Remote.onDataRecv lockedGlobals [Remote.CMD_GAME_START] 1 =
      lockedGlobals :=
  ⟨rfl,
    locked_controller_ignores_commands lockedGlobals
      [Remote.CMD_GAME_START] 1 rfl⟩

/-- Claim C8: with a non-wrapping clock, the Controller keeps displaying
`correct`/`wrong` while at most 2000 ms have elapsed and, once more than
2000 ms have elapsed, unlocks and returns to `playing`; it keeps
displaying `won` while at most 10000 ms have elapsed and, once more than
10000 ms have elapsed, unlocks and returns to `ready`. -/
theorem controller_display_durations (r : Remote.Globals) (now : Nat)
    (ok : Nat → Bool) (hle : r.lastStateUpdate ≤ now) (hnow : now < u32Mod) :
    (r.state = .correct → 2000 < now - r.lastStateUpdate →
        (Remote.loopStep now ok r).state = .playing ∧
        (Remote.loopStep now ok r).locked = false) ∧
    (r.state = .correct → now - r.lastStateUpdate ≤ 2000 →
        Remote.loopStep now ok r = r) ∧
    (r.state = .wrong → 2000 < now - r.lastStateUpdate →
        (Remote.loopStep now ok r).state = .playing ∧
        (Remote.loopStep now ok r).locked = false) ∧
    (r.state = .wrong → now - r.lastStateUpdate ≤ 2000 →
        Remote.loopStep now ok r = r) ∧
    (r.state = .won → 10000 < now - r.lastStateUpdate →
        (Remote.loopStep now ok r).state = .ready ∧
        (Remote.loopStep now ok r).locked = false) ∧
    (r.state = .won → now - r.lastStateUpdate ≤ 10000 →
        Remote.loopStep now ok r = r) := by
  have hw : wrapSub now r.lastStateUpdate = now - r.lastStateUpdate :=
    wrapSub_eq_sub _ _ hle hnow
  refine ⟨?_, ?_, ?_, ?_, ?_, ?_⟩ <;> intro hs hcond <;>
    simp [Remote.loopStep, hs, hw, hcond]

/-- Witness for C8: a Controller in `correct` since time 0 observed at
2001 ms returns to `playing` and unlocks. -/
theorem controller_display_durations_witness :
    lockedGlobals.lastStateUpdate ≤ 2001 ∧ (2001 : Nat) < u32Mod ∧
    ((lockedGlobals.state = .correct →
        2000 < 2001 - lockedGlobals.lastStateUpdate →
        (Remote.loopStep 2001 (fun _ => true) lockedGlobals).state =
          .playing ∧
        (Remote.loopStep 2001 (fun _ => true) lockedGlobals).locked =
          false) ∧
      (lockedGlobals.state = .correct →
        2001 - lockedGlobals.lastStateUpdate ≤ 2000 →
        Remote.loopStep 2001 (fun _ => true) lockedGlobals =
          lockedGlobals) ∧
      (lockedGlobals.state = .wrong →
        2000 < 2001 - lockedGlobals.lastStateUpdate →
        (Remote.loopStep 2001 (fun _ => true) lockedGlobals).state =
          .playing ∧
        (Remote.loopStep 2001 (fun _ => true) lockedGlobals).locked =
          false) ∧
      (lockedGlobals.state = .wrong →
        2001 - lockedGlobals.lastStateUpdate ≤ 2000 →
        Remote.loopStep 2001 (fun _ => true) lockedGlobals =
          lockedGlobals) ∧
      (lockedGlobals.state = .won →
        10000 < 2001 - lockedGlobals.lastStateUpdate →
        (Remote.loopStep 2001 (fun _ => true) lockedGlobals).state =
          .ready ∧
        (Remote.loopStep 2001 (fun _ => true) lockedGlobals).locked =
          false) ∧
      (lockedGlobals.state = .won →
        2001 - lockedGlobals.lastStateUpdate ≤ 10000 →
        Remote.loopStep 2001 (fun _ => true) lockedGlobals =
          lockedGlobals)) :=
  ⟨by decide, by decide,
    controller_display_durations lockedGlobals 2001 (fun _ => true)
      (by decide) (by decide)⟩

/-- A Coordinator loop iteration never changes `difficulty` except in the
`idle` short-press branch, where it increments it mod 16. -/
theorem loopStep_difficulty (rng : Nat → Nat) (bs : Bool) (now : Nat)
    (c : Manager.Globals) :
    (Manager.loopStep rng bs now c).1.difficulty = c.difficulty ∨
    (c.state = .idle ∧
      (Manager.loopStep rng bs now c).1.difficulty =
        (c.difficulty + 1) % 16) := by
  obtain ⟨st, d, dl, bi, lp, sp, ldt, bps, sq, cs, g, gd⟩ := c
  cases st <;>
    simp [Manager.loopStep, Manager.updateButtonState,
      Manager.generateSequence, Manager.increaseDifficulty,
      Manager.treatGuess] <;>
    split_ifs <;> simp

/-- No Coordinator transition ever sets `difficultyLocked`: a loop
iteration, an inbound packet or a button edge leaves it `false` when it
was `false`. -/
theorem difficultyLocked_never_set (rng : Nat → Nat) (bs : Bool)
    (now : Nat) (data : List Nat) (len : Nat) (c : Manager.Globals)
    (h : c.difficultyLocked = false) :
    (Manager.loopStep rng bs now c).1.difficultyLocked = false ∧
    (Manager.onDataRecv c data len).difficultyLocked = false ∧
    (Manager.onButtonPress now c).difficultyLocked = false := by
  obtain ⟨st, d, dl, bi, lp, sp, ldt, bps, sq, cs, g, gd⟩ := c
  subst h
  refine ⟨?_, ?_, ?_⟩
  · cases st <;>
      simp [Manager.loopStep, Manager.updateButtonState,
        Manager.generateSequence, Manager.increaseDifficulty,
        Manager.treatGuess] <;>
      split_ifs <;> simp
  · simp only [Manager.onDataRecv]
    split <;> simp
  · simp only [Manager.onButtonPress]
    split <;> simp

/-- In every reachable Coordinator state the `difficultyLocked` flag is
`false` (the sources never assign `true` to it). -/
theorem reachable_difficultyLocked_false {c : Manager.Globals}
    (h : Manager.Reachable c) : c.difficultyLocked = false := by
  induction h with
  | init => rfl
  | loop rng bs now h ih =>
      exact (difficultyLocked_never_set rng bs now [] 0 _ ih).1
  | recv data len h ih =>
      exact (difficultyLocked_never_set (fun _ => 0) true 0 data len _ ih).2.1
  | button now h ih =>
      exact (difficultyLocked_never_set (fun _ => 0) true now [] 0 _ ih).2.2

/-- Claim C6: in any reachable Coordinator state, a loop iteration that
changes `difficulty` can only happen in `idle` with the difficulty
unlocked, and the change is an increment mod 16; inbound packets and
button edges never change `difficulty`. -/
theorem difficulty_only_idle_increment (rng : Nat → Nat) (bs : Bool)
    (now : Nat) (data : List Nat) (len : Nat) {c : Manager.Globals}
    (hc : Manager.Reachable c) :
    ((Manager.loopStep rng bs now c).1.difficulty ≠ c.difficulty →
        c.state = .idle ∧ c.difficultyLocked = false ∧
        (Manager.loopStep rng bs now c).1.difficulty =
          (c.difficulty + 1) % 16) ∧
    (Manager.onDataRecv c data len).difficulty = c.difficulty ∧
    (Manager.onButtonPress now c).difficulty = c.difficulty := by
  refine ⟨?_, ?_, ?_⟩
  · intro hne
    rcases loopStep_difficulty rng bs now c with h | ⟨h1, h2⟩
    · exact absurd h hne
    · exact ⟨h1, reachable_difficultyLocked_false hc, h2⟩
  · simp only [Manager.onDataRecv]
    split <;> rfl
  · simp only [Manager.onButtonPress]
    split <;> rfl

/-- Witness for C6 at the initial Coordinator state. -/
theorem difficulty_only_idle_increment_witness :
    Manager.Reachable Manager.initGlobals ∧
    (((Manager.loopStep (fun _ => 0) true 0 Manager.initGlobals).1.difficulty
          ≠ Manager.initGlobals.difficulty →
        Manager.initGlobals.state = .idle ∧
        Manager.initGlobals.difficultyLocked = false ∧
        (Manager.loopStep (fun _ => 0) true 0
            Manager.initGlobals).1.difficulty =
          (Manager.initGlobals.difficulty + 1) % 16) ∧
      (Manager.onDataRecv Manager.initGlobals [2] 1).difficulty =
        Manager.initGlobals.difficulty ∧
      (Manager.onButtonPress 0 Manager.initGlobals).difficulty =
        Manager.initGlobals.difficulty) :=
  ⟨Manager.Reachable.init,
    difficulty_only_idle_increment (fun _ => 0) true 0 [2] 1
      Manager.Reachable.init⟩

/-- A Coordinator state in `idle` with a press recorded at 100 ms. -/
def heldGlobals : Manager.Globals :=
  { Manager.initGlobals with buttonPressStart := 100 }

/-- Claim C9: with a recorded press start and a non-wrapping clock, the
release processed by `updateButtonState` is classified long-press iff
the button was held at least `longPressDuration` (2000 ms) and
short-press iff it was held less, and the press-start timing is reset;
a raw edge within `debounceDelay` (50 ms) of the previously accepted
edge is discarded by the ISR with no state change; and once the timing
has been reset (`buttonPressStart = 0`) a further `updateButtonState`
call produces no classification. -/
theorem button_press_classification (c : Manager.Globals)
    (now now2 : Nat) (bs2 : Bool)
    (hle : c.buttonPressStart ≤ now) (hnow : now < u32Mod) :
    (0 < c.buttonPressStart → c.longPressed = false →
      c.shortPressed = false →
        ((Manager.updateButtonState true now c).longPressed = true ↔
          Manager.longPressDuration ≤ now - c.buttonPressStart) ∧
        ((Manager.updateButtonState true now c).shortPressed = true ↔
          now - c.buttonPressStart < Manager.longPressDuration) ∧
        (Manager.updateButtonState true now c).buttonPressStart = 0) ∧
    (wrapSub now2 c.lastDebounceTime ≤ Manager.debounceDelay →
        Manager.onButtonPress now2 c = c) ∧
    (c.buttonPressStart = 0 →
        (Manager.updateButtonState bs2 now2 c).longPressed =
          c.longPressed ∧
        (Manager.updateButtonState bs2 now2 c).shortPressed =
          c.shortPressed) := by
  refine ⟨?_, ?_, ?_⟩
  · intro hp hl hs
    have hw : wrapSub now c.buttonPressStart = now - c.buttonPressStart :=
      wrapSub_eq_sub _ _ hle hnow
    by_cases hth :
        Manager.longPressDuration ≤ now - c.buttonPressStart
    · simp [Manager.updateButtonState, hp, hw, hth, hs]
      try omega
    · simp [Manager.updateButtonState, hp, hw, hth, hl]
      try omega
  · intro h
    have hng : ¬ Manager.debounceDelay < wrapSub now2 c.lastDebounceTime := by
      omega
    simp [Manager.onButtonPress, hng]
  · intro h0
    simp [Manager.updateButtonState, h0]

/-- Witness for C9: a press recorded at 100 ms and released at 2200 ms is
classified as a long press (held 2100 ms ≥ 2000 ms). -/
theorem button_press_classification_witness :
    heldGlobals.buttonPressStart ≤ 2200 ∧ (2200 : Nat) < u32Mod ∧
    ((0 < heldGlobals.buttonPressStart → heldGlobals.longPressed = false →
        heldGlobals.shortPressed = false →
        ((Manager.updateButtonState true 2200 heldGlobals).longPressed =
            true ↔
          Manager.longPressDuration ≤
            2200 - heldGlobals.buttonPressStart) ∧
        ((Manager.updateButtonState true 2200 heldGlobals).shortPressed =
            true ↔
          2200 - heldGlobals.buttonPressStart <
            Manager.longPressDuration) ∧
        (Manager.updateButtonState true 2200
            heldGlobals).buttonPressStart = 0) ∧
      (wrapSub 10 heldGlobals.lastDebounceTime ≤ Manager.debounceDelay →
          Manager.onButtonPress 10 heldGlobals = heldGlobals) ∧
      (heldGlobals.buttonPressStart = 0 →
          (Manager.updateButtonState false 10 heldGlobals).longPressed =
            heldGlobals.longPressed ∧
          (Manager.updateButtonState false 10 heldGlobals).shortPressed =
            heldGlobals.shortPressed)) :=
  ⟨by decide, by decide,
    button_press_classification heldGlobals 2200 10 false (by decide)
      (by decide)⟩

/-- Claim C10: the `guessed` flag is never cleared — a loop iteration, an
inbound packet and a button edge all leave it set — and every loop
iteration taken in `playing` with `guessed` set runs `treatGuess` again
on the stored guess. -/
theorem guessed_flag_never_cleared (rng : Nat → Nat) (bs : Bool)
    (now : Nat) (data : List Nat) (len : Nat) (c : Manager.Globals)
    (hg : c.guessed = true) :
    (Manager.loopStep rng bs now c).1.guessed = true ∧
    (Manager.onDataRecv c data len).guessed = true ∧
    (Manager.onButtonPress now c).guessed = true ∧
    (c.state = .playing →
        Manager.loopStep rng bs now c =
          ((Manager.treatGuess c).1, [(Manager.treatGuess c).2])) := by
  refine ⟨?_, ?_, ?_, ?_⟩
  · obtain ⟨st, d, dl, bi, lp, sp, ldt, bps, sq, cs, g, gd⟩ := c
    subst hg
    cases st <;>
      simp [Manager.loopStep, Manager.updateButtonState,
        Manager.generateSequence, Manager.increaseDifficulty,
        Manager.treatGuess] <;>
      split_ifs <;> simp
  · simp only [Manager.onDataRecv]
    split <;> simp [hg]
  · simp only [Manager.onButtonPress]
    split <;> simp [hg]
  · intro hs
    simp [Manager.loopStep, hs, hg]

/-- Witness for C10 in `playing` with a pending guess. -/
theorem guessed_flag_never_cleared_witness :
    playingGlobals.guessed = true ∧
    ((Manager.loopStep (fun _ => 0) true 0 playingGlobals).1.guessed =
        true ∧
      (Manager.onDataRecv playingGlobals [2] 1).guessed = true ∧
      (Manager.onButtonPress 0 playingGlobals).guessed = true ∧
      (playingGlobals.state = .playing →
          Manager.loopStep (fun _ => 0) true 0 playingGlobals =
            ((Manager.treatGuess playingGlobals).1,
              [(Manager.treatGuess playingGlobals).2]))) :=
  ⟨rfl,
    guessed_flag_never_cleared (fun _ => 0) true 0 [2] 1 playingGlobals
      rfl⟩
